import Mathlib

/-!
Verification of the triage and case-lifecycle logic of the
Grievance-Management-System repository (`src/grievance_app_lite.py`,
class `LiteGrievanceSystem`).

The external sentiment scorers (VADER and TextBlob) are treated as a
black box: a `Scorer` is a pair of functions from the input text to an
optional result, where `none` models the scorer raising an exception.
Floating-point polarity scores are embedded as rationals; the thresholds
`0.05` and `0.5` compared against them are exact in both settings.
Machine integers (priorities, ids, word counts) are embedded as `Nat`.

The `DatabaseManager` collaborator (`database.py`) is not part of the
source tree; its operations are modelled from the specification, each
marked `Modelled from the spec:` in its doc comment.
-/

namespace GrievanceLite

/-- Sentiment labels produced by `analyze_sentiment_lite`. -/
inductive Sentiment
  | positive
  | negative
  | neutral
deriving DecidableEq, Repr

/-- Output of `SentimentIntensityAnalyzer.polarity_scores`: the compound
polarity together with the positive, negative and neutral magnitudes. -/
structure ScorerOutput where
  compound : ℚ
  pos : ℚ
  neg : ℚ
  neu : ℚ
deriving DecidableEq, Repr

/-- The `analysis` sub-record built at lines 113-118 of
`grievance_app_lite.py` when both scorers succeed. -/
structure AnalysisDetail where
  positive : ℚ
  negative : ℚ
  neutral : ℚ
  textblob_polarity : ℚ
deriving DecidableEq, Repr

/-- The record returned by `LiteGrievanceSystem.analyze_sentiment_lite`.
`analysis = none` embeds the empty dictionary of the fallback branch. -/
structure SentimentResult where
  sentiment : Sentiment
  priority : ℕ
  compound_score : ℚ
  impact_score : ℚ
  analysis : Option AnalysisDetail
deriving DecidableEq, Repr

/-- The pair of external scorers used by `analyze_sentiment_lite`:
VADER's `polarity_scores` and TextBlob's `sentiment.polarity`, both
black boxes mapping the input text to a result. `none` models the
call raising an exception. -/
structure Scorer where
  polarity_scores : String → Option ScorerOutput
  textblob_polarity : String → Option ℚ

/-- Counts maximal runs of non-whitespace characters; the flag records
whether the previous character was inside such a run. -/
def countWordRuns : List Char → Bool → ℕ
  | [], _ => 0
  | c :: cs, inWord =>
      if c.isWhitespace then countWordRuns cs false
      else (if inWord then 0 else 1) + countWordRuns cs true

/-- Number of words of the text: Python's `len(text.split())`, which
splits on whitespace runs and drops empty fragments, i.e. counts the
maximal non-whitespace runs. -/
def wordCount (text : String) : ℕ :=
  countWordRuns text.toList false

/-- `LiteGrievanceSystem.analyze_sentiment_lite` (lines 84-128).
If either scorer raises, the `except` branch returns the fixed fallback
record; otherwise the compound score is bucketed into sentiment and
priority and the impact score is computed from it and the word count. -/
def analyze_sentiment_lite (sc : Scorer) (text : String) : SentimentResult :=
  match sc.polarity_scores text, sc.textblob_polarity text with
  | some vader_scores, some blob_polarity =>
      let compound_score := vader_scores.compound
      let sp : Sentiment × ℕ :=
        if compound_score ≥ 5/100 then
          (Sentiment.positive, 3)
        else if compound_score ≤ -(5/100) then
          (Sentiment.negative, if compound_score ≤ -(1/2) then 1 else 2)
        else
          (Sentiment.neutral, 2)
      let impact_score := min (|compound_score| + (wordCount text : ℚ) / 100) 1
      { sentiment := sp.1
        priority := sp.2
        compound_score := compound_score
        impact_score := impact_score
        analysis := some
          { positive := vader_scores.pos
            negative := vader_scores.neg
            neutral := vader_scores.neu
            textblob_polarity := blob_polarity } }
  | _, _ =>
      { sentiment := Sentiment.neutral
        priority := 2
        compound_score := 0
        impact_score := 1/2
        analysis := none }

/-- A scorer that always succeeds and reports compound polarity `c`
(used to instantiate theorems at concrete inputs). -/
def constScorer (c : ℚ) : Scorer :=
  { polarity_scores := fun _ => some { compound := c, pos := 0, neg := 0, neu := 0 }
    textblob_polarity := fun _ => some 0 }

/-- A scorer whose calls always raise. -/
def failScorer : Scorer :=
  { polarity_scores := fun _ => none
    textblob_polarity := fun _ => none }

/-- Case status, selected by staff from the fixed list
`["Pending", "In Progress", "Resolved"]`. -/
inductive Status
  | Pending
  | InProgress
  | Resolved
deriving DecidableEq, Repr

/-- A stored grievance record. `submitter_id` is the value of the
`user_id` column; the specification's data model declares it optional
(absent when no user is referenced), hence `Option ℕ`. Timestamps are
abstracted to `ℕ`. -/
structure Grievance where
  id : ℕ
  submitter_id : Option ℕ
  title : String
  category : String
  description : String
  sentiment : Sentiment
  priority : ℕ
  status : Status
  response : Option String
  rating : Option ℕ
  created_at : ℕ
deriving DecidableEq, Repr

/-- Modelled from the spec: `DatabaseManager.submit_grievance`
(`database.py` is not in the source tree). Stores a new record with a
fresh id, the given submitter id, fields, sentiment and priority, and
the initial status `Pending`; returns the updated table and the stored
record (whose `id` is the returned id). -/
def submit_grievance (db : List Grievance) (user_id : Option ℕ)
    (title category description : String) (sentiment : Sentiment)
    (priority : ℕ) (now : ℕ) : List Grievance × Grievance :=
  let g : Grievance :=
    { id := db.length + 1
      submitter_id := user_id
      title := title
      category := category
      description := description
      sentiment := sentiment
      priority := priority
      status := Status.Pending
      response := none
      rating := none
      created_at := now }
  (db ++ [g], g)

/-- Modelled from the spec: `DatabaseManager.update_grievance_status`
(`database.py` is not in the source tree). Sets the status and
overwrites the response of the record with the given id; every other
field is untouched. -/
def update_grievance_status (db : List Grievance) (gid : ℕ)
    (status : Status) (response : String) : List Grievance :=
  db.map fun g =>
    if g.id = gid then { g with status := status, response := some response } else g

/-- Modelled from the spec: `DatabaseManager.get_grievances(user_id?)`
(`database.py` is not in the source tree). With no user id it returns
the whole table; with a user id it returns the records submitted by
that user. -/
def get_grievances (db : List Grievance) (user_id : Option ℕ) : List Grievance :=
  match user_id with
  | none => db
  | some u => db.filter fun g => g.submitter_id = some u

/-- Python's `x or d` on an optional integer `x`: `None` and `0` are
falsy, so both give `d`. -/
def pyOrNat (x : Option ℕ) (d : ℕ) : ℕ :=
  match x with
  | none => d
  | some n => if n = 0 then d else n

/-- The submission handler `_show_submit_grievance` (lines 294-306):
analyze the description, compute `user_id = None if anonymous else
session user id`, and store via `submit_grievance(user_id or 0, ...)`
with the sentiment and priority from the analysis. -/
def submit_flow (sc : Scorer) (anonymous : Bool) (session_user_id : ℕ)
    (title category description : String) (db : List Grievance)
    (now : ℕ) : List Grievance × Grievance :=
  let analysis := analyze_sentiment_lite sc description
  let user_id : Option ℕ := if anonymous then none else some session_user_id
  submit_grievance db (some (pyOrNat user_id 0)) title category description
    analysis.sentiment analysis.priority now

/-- Observable outcome of rendering the admin panel: whether
`get_grievances` was called, which grievances are rendered with their
update controls, and whether the access-denied error was shown. -/
structure PanelResult where
  fetched_grievances : Bool
  shown_grievances : List Grievance
  access_denied : Bool
deriving DecidableEq, Repr

/-- `_show_admin_panel` (lines 362-408): roles outside
`{admin, staff}` get the access-denied error before any fetch; otherwise
the grievance list is fetched and the first 10 records are rendered,
each with its status/response update controls. -/
def show_admin_panel (role : String) (db : List Grievance) : PanelResult :=
  if role ≠ "admin" ∧ role ≠ "staff" then
    { fetched_grievances := false, shown_grievances := [], access_denied := true }
  else
    let grievances := db
    if grievances = [] then
      { fetched_grievances := true, shown_grievances := [], access_denied := false }
    else
      { fetched_grievances := true, shown_grievances := grievances.take 10,
        access_denied := false }

/-- `_show_my_grievances` (lines 331-337): fetch with
`user_id = session user id if role != admin else None`. -/
def show_my_grievances (role : String) (session_user_id : ℕ)
    (db : List Grievance) : List Grievance :=
  get_grievances db (if role ≠ "admin" then some session_user_id else none)

/-- A concrete stored grievance in status `Pending` (used to instantiate
theorems at concrete inputs). -/
def sampleGrievance : Grievance :=
  { id := 1
    submitter_id := some 2
    title := "t"
    category := "Academic"
    description := "d"
    sentiment := Sentiment.negative
    priority := 1
    status := Status.Pending
    response := none
    rating := none
    created_at := 0 }

/-- **C1** For every input text whose compound polarity score is `c`, the
classifier returns sentiment positive and priority 3 when `c ≥ 0.05`;
sentiment negative with priority 1 when `c ≤ -0.5` and priority 2 when
`-0.5 < c ≤ -0.05`; and sentiment neutral with priority 2 when
`-0.05 < c < 0.05`. -/
theorem classifier_thresholds (sc : Scorer) (t : String) (vs : ScorerOutput)
    (bp : ℚ) (hv : sc.polarity_scores t = some vs)
    (hb : sc.textblob_polarity t = some bp) :
    (vs.compound ≥ 5/100 →
      (analyze_sentiment_lite sc t).sentiment = Sentiment.positive ∧
      (analyze_sentiment_lite sc t).priority = 3) ∧
    (vs.compound ≤ -(1/2) →
      (analyze_sentiment_lite sc t).sentiment = Sentiment.negative ∧
      (analyze_sentiment_lite sc t).priority = 1) ∧
    (-(1/2) < vs.compound ∧ vs.compound ≤ -(5/100) →
      (analyze_sentiment_lite sc t).sentiment = Sentiment.negative ∧
      (analyze_sentiment_lite sc t).priority = 2) ∧
    (-(5/100) < vs.compound ∧ vs.compound < 5/100 →
      (analyze_sentiment_lite sc t).sentiment = Sentiment.neutral ∧
      (analyze_sentiment_lite sc t).priority = 2) := by
  simp only [analyze_sentiment_lite, hv, hb]
  refine ⟨fun h1 => ?_, fun h2 => ?_, fun h3 => ?_, fun h4 => ?_⟩
  · simp [h1]
  · have hle : vs.compound ≤ -(5/100) := by linarith
    have hnot : ¬ vs.compound ≥ 5/100 := by linarith
    simp [hnot, hle]
    linarith
  · have hnot : ¬ vs.compound ≥ 5/100 := by linarith
    have hnot2 : ¬ vs.compound ≤ -(1/2) := by linarith
    simp [hnot, h3.2, hnot2]
    linarith
  · have hnot : ¬ vs.compound ≥ 5/100 := by linarith
    have hnot2 : ¬ vs.compound ≤ -(5/100) := by linarith
    simp [hnot, hnot2]

/-- Witness for C1: the boundary inputs named by the claim, checked on
concrete scorers: `c = 0.05` gives positive/3, `c = 0.049999` gives
neutral/2, `c = -0.05` gives negative/2, `c = -0.5` gives negative/1. -/
theorem classifier_thresholds_witness :
    ((analyze_sentiment_lite (constScorer (5/100)) "x").sentiment = Sentiment.positive ∧
      (analyze_sentiment_lite (constScorer (5/100)) "x").priority = 3) ∧
    ((analyze_sentiment_lite (constScorer (49999/1000000)) "x").sentiment = Sentiment.neutral ∧
      (analyze_sentiment_lite (constScorer (49999/1000000)) "x").priority = 2) ∧
    ((analyze_sentiment_lite (constScorer (-(5/100))) "x").sentiment = Sentiment.negative ∧
      (analyze_sentiment_lite (constScorer (-(5/100))) "x").priority = 2) ∧
    ((analyze_sentiment_lite (constScorer (-(1/2))) "x").sentiment = Sentiment.negative ∧
      (analyze_sentiment_lite (constScorer (-(1/2))) "x").priority = 1) := by
  refine ⟨?_, ?_, ?_, ?_⟩
  · exact (classifier_thresholds (constScorer (5/100)) "x" _ 0 rfl rfl).1 (by norm_num)
  · exact (classifier_thresholds (constScorer (49999/1000000)) "x" _ 0 rfl rfl).2.2.2
      (by norm_num)
  · exact (classifier_thresholds (constScorer (-(5/100))) "x" _ 0 rfl rfl).2.2.1
      (by norm_num)
  · exact (classifier_thresholds (constScorer (-(1/2))) "x" _ 0 rfl rfl).2.1 (by norm_num)

/-- **C2** If either external scorer raises, `analyze_sentiment_lite`
returns the fixed fallback record (neutral, priority 2, impact 0.5,
empty analysis) instead of propagating the error, and a submission with
that description still succeeds: the record is appended to the table
with sentiment neutral and priority 2. -/
theorem scorer_failure_fallback (sc : Scorer) (t : String)
    (anonymous : Bool) (uid : ℕ) (title category : String)
    (db : List Grievance) (now : ℕ)
    (h : sc.polarity_scores t = none ∨ sc.textblob_polarity t = none) :
    analyze_sentiment_lite sc t =
      { sentiment := Sentiment.neutral, priority := 2, compound_score := 0,
        impact_score := 1/2, analysis := none } ∧
    (submit_flow sc anonymous uid title category t db now).1 =
      db ++ [(submit_flow sc anonymous uid title category t db now).2] ∧
    (submit_flow sc anonymous uid title category t db now).2.sentiment =
      Sentiment.neutral ∧
    (submit_flow sc anonymous uid title category t db now).2.priority = 2 := by
  have hfall : analyze_sentiment_lite sc t =
      { sentiment := Sentiment.neutral, priority := 2, compound_score := 0,
        impact_score := 1/2, analysis := none } := by
    rcases h with h | h
    · cases h2 : sc.textblob_polarity t <;> simp [analyze_sentiment_lite, h, h2]
    · cases h1 : sc.polarity_scores t <;> simp [analyze_sentiment_lite, h, h1]
  refine ⟨hfall, ?_, ?_, ?_⟩ <;> simp [submit_flow, submit_grievance, hfall]

/-- Witness for C2: with a scorer that always raises, an anonymous
submission over an empty table stores one record with sentiment neutral
and priority 2. -/
theorem scorer_failure_fallback_witness :
    analyze_sentiment_lite failScorer "bad day" =
      { sentiment := Sentiment.neutral, priority := 2, compound_score := 0,
        impact_score := 1/2, analysis := none } ∧
    (submit_flow failScorer true 7 "t" "Other" "bad day" [] 0).1 =
      [] ++ [(submit_flow failScorer true 7 "t" "Other" "bad day" [] 0).2] ∧
    (submit_flow failScorer true 7 "t" "Other" "bad day" [] 0).2.sentiment =
      Sentiment.neutral ∧
    (submit_flow failScorer true 7 "t" "Other" "bad day" [] 0).2.priority = 2 :=
  scorer_failure_fallback failScorer "bad day" true 7 "t" "Other" [] 0
    (Or.inl rfl)

/-- **C3** When the scorers succeed with compound score `c`, the returned
`impact_score` equals `min (|c| + wordCount/100) 1`; and for every input
(including scorer failure) the returned `impact_score` lies in `[0, 1]`. -/
theorem impact_score_formula (sc : Scorer) (t : String) (vs : ScorerOutput)
    (bp : ℚ) (sc2 : Scorer) (t2 : String)
    (hv : sc.polarity_scores t = some vs)
    (hb : sc.textblob_polarity t = some bp) :
    (analyze_sentiment_lite sc t).impact_score =
      min (|vs.compound| + (wordCount t : ℚ) / 100) 1 ∧
    0 ≤ (analyze_sentiment_lite sc2 t2).impact_score ∧
    (analyze_sentiment_lite sc2 t2).impact_score ≤ 1 := by
  refine ⟨?_, ?_, ?_⟩
  · simp only [analyze_sentiment_lite, hv, hb]
  · cases h1 : sc2.polarity_scores t2 with
    | none =>
        cases h2 : sc2.textblob_polarity t2 <;>
          norm_num [analyze_sentiment_lite, h1, h2]
    | some vs2 =>
        cases h2 : sc2.textblob_polarity t2 with
        | none => norm_num [analyze_sentiment_lite, h1, h2]
        | some bp2 =>
            simp only [analyze_sentiment_lite, h1, h2]
            exact le_min (by positivity) (by norm_num)
  · cases h1 : sc2.polarity_scores t2 with
    | none =>
        cases h2 : sc2.textblob_polarity t2 <;>
          norm_num [analyze_sentiment_lite, h1, h2]
    | some vs2 =>
        cases h2 : sc2.textblob_polarity t2 with
        | none => norm_num [analyze_sentiment_lite, h1, h2]
        | some bp2 =>
            simp only [analyze_sentiment_lite, h1, h2]
            exact min_le_right _ _

/-- Witness for C3: a two-word text scored `c = 1/10` has impact score
`min (1/10 + 2/100) 1`, and the fallback record of a failing scorer has
impact score within `[0, 1]`. -/
theorem impact_score_formula_witness :
    (analyze_sentiment_lite (constScorer (1/10)) "a b").impact_score =
      min (|(1/10 : ℚ)| + (wordCount "a b" : ℚ) / 100) 1 ∧
    0 ≤ (analyze_sentiment_lite failScorer "x").impact_score ∧
    (analyze_sentiment_lite failScorer "x").impact_score ≤ 1 :=
  impact_score_formula (constScorer (1/10)) "a b"
    { compound := 1/10, pos := 0, neg := 0, neu := 0 } 0 failScorer "x" rfl rfl

/-- **C7** The classifier is deterministic and depends only on the
compound score and the word count: two runs whose scorers succeed with
the same compound score on texts of the same word count return the same
sentiment, priority and impact score. -/
theorem classifier_deterministic (sc1 sc2 : Scorer) (t1 t2 : String)
    (vs1 vs2 : ScorerOutput) (bp1 bp2 : ℚ)
    (h1 : sc1.polarity_scores t1 = some vs1)
    (h1b : sc1.textblob_polarity t1 = some bp1)
    (h2 : sc2.polarity_scores t2 = some vs2)
    (h2b : sc2.textblob_polarity t2 = some bp2)
    (hc : vs1.compound = vs2.compound)
    (hw : wordCount t1 = wordCount t2) :
    (analyze_sentiment_lite sc1 t1).sentiment =
      (analyze_sentiment_lite sc2 t2).sentiment ∧
    (analyze_sentiment_lite sc1 t1).priority =
      (analyze_sentiment_lite sc2 t2).priority ∧
    (analyze_sentiment_lite sc1 t1).impact_score =
      (analyze_sentiment_lite sc2 t2).impact_score := by
  simp [analyze_sentiment_lite, h1, h1b, h2, h2b, hc, hw]

/-- Witness for C7: two different scorers reporting the same compound
score on two different texts of equal word count agree on sentiment,
priority and impact score. -/
theorem classifier_deterministic_witness :
    (analyze_sentiment_lite (constScorer (3/10)) "a b").sentiment =
      (analyze_sentiment_lite (constScorer (3/10)) "c d").sentiment ∧
    (analyze_sentiment_lite (constScorer (3/10)) "a b").priority =
      (analyze_sentiment_lite (constScorer (3/10)) "c d").priority ∧
    (analyze_sentiment_lite (constScorer (3/10)) "a b").impact_score =
      (analyze_sentiment_lite (constScorer (3/10)) "c d").impact_score :=
  classifier_deterministic (constScorer (3/10)) (constScorer (3/10)) "a b" "c d"
    { compound := 3/10, pos := 0, neg := 0, neu := 0 }
    { compound := 3/10, pos := 0, neg := 0, neu := 0 } 0 0 rfl rfl rfl rfl rfl
    (by decide)

/-- **C4** For every stored grievance, in any current status, and every
target status selected on the admin panel, the update is accepted and
persisted with no ordering check: the record with the target status and
the given response is in the updated table. In particular `Pending` may
go directly to `Resolved`. -/
theorem status_update_unordered (db : List Grievance) (g : Grievance)
    (hmem : g ∈ db) (target : Status) (resp : String) :
    { g with status := target, response := some resp } ∈
      update_grievance_status db g.id target resp ∧
    ({ g with status := target, response := some resp } : Grievance).status
      = target := by
  refine ⟨?_, rfl⟩
  unfold update_grievance_status
  have h := List.mem_map_of_mem
    (fun x : Grievance =>
      if x.id = g.id then { x with status := target, response := some resp }
      else x) hmem
  simpa using h

/-- Witness for C4: a `Pending` case updated directly to `Resolved`
(skipping `In Progress`) is persisted with status `Resolved`. -/
theorem status_update_unordered_witness :
    { sampleGrievance with status := Status.Resolved, response := some "done" } ∈
      update_grievance_status [sampleGrievance] sampleGrievance.id
        Status.Resolved "done" ∧
    ({ sampleGrievance with status := Status.Resolved, response := some "done" } : Grievance).status = Status.Resolved :=
  status_update_unordered [sampleGrievance] sampleGrievance
    (List.mem_singleton_self sampleGrievance) Status.Resolved "done"

/-- **C5** Sentiment and priority are computed once at submission time
from the description (the stored record carries exactly the classifier's
output on the description), and a staff update changes only the status
and response columns: the projection of the whole table to
(id, submitter, title, category, description, sentiment, priority,
created-at) is unchanged by `update_grievance_status`. -/
theorem sentiment_priority_immutable (sc : Scorer) (anonymous : Bool)
    (uid : ℕ) (title category description : String) (db db2 : List Grievance)
    (now gid : ℕ) (target : Status) (resp : String) :
    (submit_flow sc anonymous uid title category description db now).2.sentiment
      = (analyze_sentiment_lite sc description).sentiment ∧
    (submit_flow sc anonymous uid title category description db now).2.priority
      = (analyze_sentiment_lite sc description).priority ∧
    (update_grievance_status db2 gid target resp).map
      (fun g => (g.id, g.submitter_id, g.title, g.category, g.description,
        g.sentiment, g.priority, g.created_at))
      = db2.map (fun g => (g.id, g.submitter_id, g.title, g.category,
        g.description, g.sentiment, g.priority, g.created_at)) := by
  refine ⟨rfl, rfl, ?_⟩
  induction db2 with
  | nil => rfl
  | cons hd tl ih =>
      simp only [update_grievance_status, List.map_cons] at ih ⊢
      by_cases h : hd.id = gid <;> simp [h, ih]

/-- **C6 counterexample** An anonymous submission does not store an
absent submitter reference: the code passes `user_id or 0`, so the
stored reference is the present sentinel `some 0`. -/
theorem anonymous_submitter_counterexample :
    (submit_flow failScorer true 7 "t" "Other" "d" [] 0).2.submitter_id
      = some 0 ∧
    (submit_flow failScorer true 7 "t" "Other" "d" [] 0).2.submitter_id
      ≠ none := by
  constructor
  · rfl
  · simp [submit_flow, submit_grievance]

/-- **C6 (amended)** An anonymous submission stores the sentinel
submitter id 0 (a present value referencing no real user) rather than an
absent reference; a non-anonymous submission stores the logged-in user's
id, provided that id is nonzero (a zero session id would also collapse
to the sentinel under `user_id or 0`). -/
theorem submitter_reference (sc : Scorer) (uid : ℕ)
    (title category description : String) (db : List Grievance) (now : ℕ)
    (h : uid ≠ 0) :
    (submit_flow sc true uid title category description db now).2.submitter_id
      = some 0 ∧
    (submit_flow sc false uid title category description db now).2.submitter_id
      = some uid := by
  constructor
  · rfl
  · simp [submit_flow, submit_grievance, pyOrNat, h]

/-- Witness for C6 (amended): submitting with session user id 7 stores
`some 0` when anonymous and `some 7` otherwise. -/
theorem submitter_reference_witness :
    (submit_flow failScorer true 7 "t" "Other" "d" [] 0).2.submitter_id
      = some 0 ∧
    (submit_flow failScorer false 7 "t" "Other" "d" [] 0).2.submitter_id
      = some 7 :=
  submitter_reference failScorer 7 "t" "Other" "d" [] 0 (by decide)

/-- **C8** A user whose role is neither admin nor staff gets the
access-denied error from the admin panel, with no grievance fetch and no
grievance shown. -/
theorem admin_panel_access_control (role : String) (db : List Grievance)
    (h1 : role ≠ "admin") (h2 : role ≠ "staff") :
    show_admin_panel role db =
      { fetched_grievances := false, shown_grievances := [],
        access_denied := true } := by
  simp [show_admin_panel, h1, h2]

/-- Witness for C8: a student opening the admin panel over a nonempty
table is denied, nothing fetched, nothing shown. -/
theorem admin_panel_access_control_witness :
    show_admin_panel "student" [sampleGrievance] =
      { fetched_grievances := false, shown_grievances := [],
        access_denied := true } :=
  admin_panel_access_control "student" [sampleGrievance] (by decide) (by decide)

/-- **C9** For every grievance table, the admin panel renders (with
update controls) exactly the first 10 records of the fetched list, hence
at most 10; records beyond the first 10 are not rendered. -/
theorem admin_panel_caps_at_ten (role : String) (db : List Grievance)
    (h : role = "admin" ∨ role = "staff") :
    (show_admin_panel role db).shown_grievances = db.take 10 ∧
    (show_admin_panel role db).shown_grievances.length ≤ 10 := by
  have hr : ¬(role ≠ "admin" ∧ role ≠ "staff") := by
    rcases h with h | h <;> simp [h]
  have h1 : (show_admin_panel role db).shown_grievances = db.take 10 := by
    by_cases hdb : db = [] <;> simp [show_admin_panel, hr, hdb]
  refine ⟨h1, ?_⟩
  rw [h1]
  exact List.length_take_le 10 db

/-- Witness for C9: a staff member sees exactly the one record of a
one-record table, and at most 10. -/
theorem admin_panel_caps_at_ten_witness :
    (show_admin_panel "staff" [sampleGrievance]).shown_grievances =
      [sampleGrievance].take 10 ∧
    (show_admin_panel "staff" [sampleGrievance]).shown_grievances.length ≤ 10 :=
  admin_panel_caps_at_ten "staff" [sampleGrievance] (Or.inr rfl)

/-- **C10** On the My Grievances page an admin sees the whole table (the
user-id filter is dropped), while any other role, staff included, sees
only the records whose submitter id is their own. -/
theorem my_grievances_filter (role : String) (uid : ℕ)
    (db : List Grievance) (hrole : role ≠ "admin") :
    show_my_grievances "admin" uid db = db ∧
    show_my_grievances role uid db =
      db.filter (fun g => g.submitter_id = some uid) := by
  constructor
  · simp [show_my_grievances, get_grievances]
  · simp [show_my_grievances, get_grievances, hrole]

/-- Witness for C10: over a one-record table submitted by user 2, the
admin sees the record, and a staff user with id 5 sees the filtered
(empty) list. -/
theorem my_grievances_filter_witness :
    show_my_grievances "admin" 5 [sampleGrievance] = [sampleGrievance] ∧
    show_my_grievances "staff" 5 [sampleGrievance] =
      [sampleGrievance].filter (fun g => g.submitter_id = some 5) :=
  my_grievances_filter "staff" 5 [sampleGrievance] (by decide)

end GrievanceLite
